import Mathlib

/-!
Verification of the PaaS-Application deployment platform.

Shallow embedding of the core provisioning-and-deployment logic:
- the identifier allocator (`TerraformManager._generate_vm_id`,
  `Deployment.get_used_vm_ids`),
- the hostname sanitization inside `TerraformManager.generate_config`,
- the command-sequence builder (`TerraformManager._build_deployment_commands`),
- the address resolver (`TerraformManager._get_ip_from_proxmox`),
- the apply / destroy / remote-deploy engine operations
  (`TerraformManager.apply`, `.destroy`, `.deploy_application`),
- the orchestration routes (`deploy_application` and `delete_deployment`
  in `backend/api/routes.py`).

Python strings are modelled as Lean `String` (character lists where
character-level reasoning is needed); machine randomness is modelled as an
explicit stream of natural numbers; external calls (Terraform process
invocations, the Proxmox API, SSH) are modelled as explicit environments of
stubbed results, so each function is a total Lean function of its
environment.  Python exceptions are modelled with `Except String`; the
`try/except` wrappers that convert exceptions into `{'success': False,
'error': ...}` dictionaries are modelled as explicit wrapper functions.
-/

namespace PaaS

/-- Python's `needle in hay` substring test on strings. -/
def pyIn (needle hay : String) : Bool :=
  decide (needle.toList <:+: hay.toList)

/-- Python's `str(x)` on an `Optional[str]` value: `None` prints as "None". -/
def pyStrOfOpt : Option String → String
  | none => "None"
  | some s => s

/-- Python's `s.startswith(pre)`. -/
def pyStartsWith (s pre : String) : Bool :=
  pre.toList.isPrefixOf s.toList

/-- Python's `s.split('/')[0]`: the prefix of `s` before the first `/`
(the whole string when there is no `/`). -/
def beforeSlash (s : String) : String :=
  String.mk (s.toList.takeWhile (fun c => c ≠ '/'))

/-- `needle` occurs as a contiguous substring of `hay`. -/
def SubStr (needle hay : String) : Prop :=
  needle.toList <:+: hay.toList

/-- The deployment status enumeration (`DeploymentStatus` in
`backend/models/deployment.py`). -/
inductive DeploymentStatus
  | pending
  | provisioning
  | deploying
  | running
  | failed
  | stopped
  | deleted
deriving DecidableEq, Repr

/-- The string value of each status (`DeploymentStatus.*.value`). -/
def DeploymentStatus.value : DeploymentStatus → String
  | .pending => "pending"
  | .provisioning => "provisioning"
  | .deploying => "deploying"
  | .running => "running"
  | .failed => "failed"
  | .stopped => "stopped"
  | .deleted => "deleted"

/-! ## Identifier allocator

`Deployment.get_used_vm_ids` (backend/models/deployment.py:218-230) and
`TerraformManager._generate_vm_id` (backend/api/terraform_manager.py:824-861).
-/

/-- A persisted deployment row, restricted to the columns the allocator
query reads: `vm_id` (nullable) and the raw `status` string column. -/
structure DbRow where
  vmId : Option Nat
  status : String
deriving Repr

/-- `Deployment.get_used_vm_ids`: the `vm_id`s of rows whose `vm_id` is not
NULL and whose status column is not `'deleted'`. -/
def getUsedVmIds (rows : List DbRow) : List Nat :=
  (rows.filter (fun r => r.vmId.isSome && r.status != "deleted")).filterMap
    (fun r => r.vmId)

/-- The random-pick phase of `_generate_vm_id`: starting at pick index `i`
with `fuel` picks remaining, draw `random.randint(100, 999)` (modelled as
`100 + rand i % 900`) and return the first draw not in `used`. -/
def tryRandomFrom (used : List Nat) (rand : Nat → Nat) (i : Nat) :
    Nat → Option Nat
  | 0 => none
  | fuel + 1 =>
    let v := 100 + rand i % 900
    if v ∈ used then tryRandomFrom used rand (i + 1) fuel else some v

/-- The sequential-scan fallback of `_generate_vm_id`: starting at `v` with
`fuel` candidates remaining, return the first candidate not in `used`. -/
def linearFrom (used : List Nat) (v : Nat) : Nat → Option Nat
  | 0 => none
  | fuel + 1 =>
    if v ∈ used then linearFrom used (v + 1) fuel else some v

/-- `TerraformManager._generate_vm_id`: the used set is the union of the
database IDs and the Proxmox IDs; up to 100 random picks in [100, 999],
then a linear scan of 100..999, then the exhaustion exception. -/
def generateVmId (dbVmIds proxmoxVmIds : List Nat) (rand : Nat → Nat) :
    Except String Nat :=
  let usedIds := dbVmIds ++ proxmoxVmIds
  match tryRandomFrom usedIds rand 0 100 with
  | some v => .ok v
  | none =>
    match linearFrom usedIds 100 900 with
    | some v => .ok v
    | none => .error "No available VM IDs in range 100-999"

/-! ## Hostname sanitization

`TerraformManager.generate_config` (backend/api/terraform_manager.py:109)
sanitizes the deployment name with `name.replace('_', '-').lower()`.
Python strings are modelled as `List Char`; `.replace('_', '-')` acts
character-wise because both arguments are single characters. -/

/-- One character of `.replace('_', '-')`. -/
def replaceUnderscore (c : Char) : Char :=
  if c = '_' then '-' else c

/-- The hostname sanitization in `generate_config`:
`name.replace('_', '-').lower()` (replace first, then lowercase). -/
def sanitizeHostname (name : List Char) : List Char :=
  (name.map replaceUnderscore).map Char.toLower

/-- One character class of the deployment-name validator regex
`^[a-zA-Z0-9_-]{3,50}$` (backend/utils/validators.py:99). -/
def ValidNameChar (c : Char) : Prop :=
  (65 ≤ c.toNat ∧ c.toNat ≤ 90) ∨ (97 ≤ c.toNat ∧ c.toNat ≤ 122) ∨
    (48 ≤ c.toNat ∧ c.toNat ≤ 57) ∨ c.toNat = 45 ∨ c.toNat = 95

/-- A DNS-token-safe hostname character: lowercase letter, digit, or
hyphen. -/
def DnsSafeChar (c : Char) : Prop :=
  (97 ≤ c.toNat ∧ c.toNat ≤ 122) ∨ (48 ≤ c.toNat ∧ c.toNat ≤ 57) ∨
    c.toNat = 45

/-! ## Framework descriptors

`Config.SUPPORTED_FRAMEWORKS` (src/config.py:97-154). -/

/-- One framework descriptor: display name, language, version, listen
port, and install command. -/
structure FrameworkInfo where
  displayName : String
  language : String
  version : String
  port : Nat
  installCmd : String
deriving DecidableEq, Repr

/-- The `SUPPORTED_FRAMEWORKS` dictionary. -/
def supportedFrameworks : List (String × FrameworkInfo) :=
  [("django", ⟨"Django", "python", "4.2", 8000, "pip install django gunicorn"⟩),
   ("laravel", ⟨"Laravel", "php", "10.x", 8000, "composer global require laravel/installer"⟩),
   ("express", ⟨"Express.js", "nodejs", "18.x", 3000, "npm install express"⟩),
   ("flask", ⟨"Flask", "python", "3.0", 5000, "pip install flask gunicorn"⟩),
   ("fastapi", ⟨"FastAPI", "python", "0.104", 8000, "pip install fastapi uvicorn"⟩),
   ("react", ⟨"React", "nodejs", "18.x", 3000, "npx create-react-app"⟩),
   ("vuejs", ⟨"Vue.js", "nodejs", "3.x", 8080, "npm install -g @vue/cli"⟩),
   ("nextjs", ⟨"Next.js", "nodejs", "14.x", 3000, "npx create-next-app@latest"⟩)]

/-- `SUPPORTED_FRAMEWORKS.get(framework)`. -/
def lookupFramework (framework : String) : Option FrameworkInfo :=
  (supportedFrameworks.find? (fun p => p.1 = framework)).map (fun p => p.2)

/-! ## Command sequence builder

`TerraformManager._build_deployment_commands`
(backend/api/terraform_manager.py:502-698).  Each shell command string is
transcribed verbatim from the source; f-string interpolations become
string concatenation. -/

/-- The apt-lock wait loop (`wait_for_lock`). -/
def waitForLock : String :=
  "while fuser /var/lib/dpkg/lock >/dev/null 2>&1 || fuser /var/lib/apt/lists/lock >/dev/null 2>&1 || fuser /var/lib/dpkg/lock-frontend >/dev/null 2>&1; do echo 'Waiting for apt lock...'; sleep 2; done"

/-- Step 1: base package bootstrap (`base_cmd`). -/
def baseCmd : String :=
  "export DEBIAN_FRONTEND=noninteractive && " ++ waitForLock ++
    " && apt-get update -y && " ++ waitForLock ++
    " && apt-get install -y apt-utils git curl wget build-essential"

/-- Step 2, nodejs branch (`node_cmd`). -/
def nodeCmd : String :=
  "export DEBIAN_FRONTEND=noninteractive && " ++ waitForLock ++
    " && curl -fsSL https://deb.nodesource.com/setup_18.x | bash - && " ++
    waitForLock ++ " && apt-get install -y nodejs && npm install -g pm2 serve"

/-- Step 2, python branch (`py_cmd`). -/
def pyCmd : String :=
  "export DEBIAN_FRONTEND=noninteractive && " ++ waitForLock ++
    " && apt-get install -y python3 python3-pip python3-venv"

/-- Step 2, php branch (`php_cmd`). -/
def phpCmd : String :=
  "export DEBIAN_FRONTEND=noninteractive && " ++ waitForLock ++
    " && apt-get install -y php php-cli php-fpm php-mysql php-xml php-mbstring composer"

/-- Step 3: recreate the application directory. -/
def mkAppDirCmd : String :=
  "rm -rf /opt/app && mkdir -p /opt/app"

/-- Step 3: shallow clone of the source repository. -/
def cloneCmd (githubUrl : String) : String :=
  "git clone --depth 1 " ++ githubUrl ++ " /opt/app"

/-- Step 3.5: line-ending normalization. -/
def dos2unixCmd : String :=
  "apt-get install -y dos2unix && find /opt/app -type f \\( -name \"*.js\" -o -name \"*.py\" -o -name \"*.sh\" -o -name \"*.json\" -o -name \"*.txt\" -o -name \"*.md\" -o -name \"*.html\" -o -name \"*.css\" -o -name \"*.yml\" -o -name \"*.yaml\" -o -name \"*.env*\" -o -name \"Dockerfile*\" -o -name \"*.ts\" -o -name \"*.tsx\" -o -name \"*.jsx\" \\) -exec dos2unix \x7b\x7d \\; 2>/dev/null || true"

/-- Step 4: materialize `/opt/app/.env` from the env-var map (the lines
are joined with a literal backslash-n, interpreted by `echo -e`). -/
def envFileCmd (envVars : List (String × String)) : String :=
  "echo -e \"" ++
    String.intercalate "\\n" (envVars.map (fun kv => kv.1 ++ "=" ++ kv.2)) ++
    "\" > /opt/app/.env"

/-- Step 5, react branch. -/
def reactStartCmd (port : Nat) : String :=
  "cd /opt/app && export NODE_OPTIONS=--openssl-legacy-provider && npm install --legacy-peer-deps 2>&1 | tail -20 && (npm run build 2>&1 | tail -30 || true) && pm2 delete react-app 2>/dev/null || true && BUILD_DIR=$(if [ -d 'dist' ]; then echo 'dist'; elif [ -d 'build' ]; then echo 'build'; else echo '.'; fi) && pm2 serve $BUILD_DIR " ++
    toString port ++
    " --name react-app --spa && pm2 save && pm2 startup systemd -u root --hp /root 2>/dev/null || true"

/-- Step 5, vuejs branch. -/
def vuejsStartCmd (port : Nat) : String :=
  "cd /opt/app && export NODE_OPTIONS=--openssl-legacy-provider && npm install --legacy-peer-deps 2>&1 | tail -20 && npm run build 2>&1 | tail -20 && pm2 delete vue-app 2>/dev/null || true && pm2 serve dist " ++
    toString port ++
    " --name vue-app --spa && pm2 save && pm2 startup systemd -u root --hp /root 2>/dev/null || true"

/-- Step 5, nextjs branch. -/
def nextjsStartCmd : String :=
  "cd /opt/app && export NODE_OPTIONS=--openssl-legacy-provider && npm install --legacy-peer-deps 2>&1 | tail -20 && npm run build 2>&1 | tail -20 && pm2 delete nextjs-app 2>/dev/null || true && pm2 start npm --name nextjs-app -- start && pm2 save && pm2 startup systemd -u root --hp /root 2>/dev/null || true"

/-- Step 5, express branch. -/
def expressStartCmd : String :=
  "cd /opt/app && npm install 2>&1 | tail -20 && pm2 delete express-app 2>/dev/null || true && pm2 start npm --name express-app -- start && pm2 save && pm2 startup systemd -u root --hp /root 2>/dev/null || true"

/-- Step 5, django branch. -/
def djangoStartCmd (port : Nat) : String :=
  "cd /opt/app && python3 -m venv venv && source venv/bin/activate && pip install --upgrade pip && pip install -r requirements.txt gunicorn 2>&1 | tail -20 && python manage.py migrate --noinput 2>&1 || true && python manage.py collectstatic --noinput 2>&1 || true && nohup venv/bin/gunicorn --bind 0.0.0.0:" ++
    toString port ++
    " --workers 2 --daemon --access-logfile /var/log/app-access.log --error-logfile /var/log/app-error.log $(find . -name 'wsgi.py' | head -1 | sed 's|./||;s|/|.|g;s|.py||'):application"

/-- Step 5, flask branch. -/
def flaskStartCmd (port : Nat) : String :=
  "cd /opt/app && python3 -m venv venv && source venv/bin/activate && pip install --upgrade pip && pip install -r requirements.txt gunicorn 2>&1 | tail -20 && nohup venv/bin/gunicorn --bind 0.0.0.0:" ++
    toString port ++
    " --workers 2 --daemon --access-logfile /var/log/app-access.log --error-logfile /var/log/app-error.log app:app"

/-- Step 5, fastapi branch. -/
def fastapiStartCmd (port : Nat) : String :=
  "cd /opt/app && python3 -m venv venv && source venv/bin/activate && pip install --upgrade pip && pip install -r requirements.txt uvicorn 2>&1 | tail -20 && nohup venv/bin/uvicorn main:app --host 0.0.0.0 --port " ++
    toString port ++ " > /var/log/app.log 2>&1 &"

/-- Step 5, laravel branch. -/
def laravelStartCmd (port : Nat) : String :=
  "cd /opt/app && composer install --no-dev --optimize-autoloader 2>&1 | tail -20 && cp .env.example .env 2>/dev/null || true && php artisan key:generate 2>&1 || true && php artisan migrate --force 2>&1 || true && nohup php artisan serve --host=0.0.0.0 --port=" ++
    toString port ++ " > /var/log/app.log 2>&1 &"

/-- Step 5, fallback branch for unrecognized frameworks. -/
def genericStartCmd : String :=
  "cd /opt/app && npm install 2>&1 | tail -20 && pm2 delete app 2>/dev/null || true && pm2 start npm --name app -- start && pm2 save"

/-- Step 6: best-effort status probe. -/
def statusProbeCmd : String :=
  "sleep 3 && (pm2 list 2>/dev/null || ps aux | grep -E 'gunicorn|uvicorn|node|php' | grep -v grep | head -5)"

/-- `TerraformManager._build_deployment_commands`: the ordered command
sequence for one deployment.  `fc` is the framework descriptor the caller
looked up (the builder reads its `language` and `port`); `envVars` models
the optional `env_vars` dict (the empty list is falsy, matching
`if env_vars:`). -/
def buildDeploymentCommands (framework : String) (fc : FrameworkInfo)
    (githubUrl : String) (envVars : List (String × String)) : List String :=
  let langCmds : List String :=
    if fc.language = "nodejs" then [nodeCmd]
    else if fc.language = "python" then [pyCmd]
    else if fc.language = "php" then [phpCmd]
    else []
  let envCmds : List String :=
    if envVars.isEmpty then [] else [envFileCmd envVars]
  let startCmd : String :=
    if framework = "react" then reactStartCmd fc.port
    else if framework = "vuejs" then vuejsStartCmd fc.port
    else if framework = "nextjs" then nextjsStartCmd
    else if framework = "express" then expressStartCmd
    else if framework = "django" then djangoStartCmd fc.port
    else if framework = "flask" then flaskStartCmd fc.port
    else if framework = "fastapi" then fastapiStartCmd fc.port
    else if framework = "laravel" then laravelStartCmd fc.port
    else genericStartCmd
  [baseCmd] ++ langCmds ++ [mkAppDirCmd, cloneCmd githubUrl, dos2unixCmd] ++
    envCmds ++ [startCmd, statusProbeCmd]

/-! ## Address resolver

`TerraformManager._get_ip_from_proxmox`
(backend/api/terraform_manager.py:721-822).  Proxmox API responses are
modelled as explicit per-attempt streams in a `ResolverEnv`. -/

/-- One LXC network interface as reported by
`proxmox.nodes(node).lxc(vm_id).interfaces.get()`: the `name` key and the
optional `inet` key. -/
structure LxcIface where
  name : String
  inet : Option String
deriving DecidableEq, Repr

/-- One entry of a QEMU interface's `ip-addresses` list:
`ip-address-type` and `ip-address`. -/
structure IpAddrEntry where
  addrType : String
  address : String
deriving DecidableEq, Repr

/-- One QEMU guest-agent interface: `name` and `ip-addresses`. -/
structure VmIface where
  name : String
  ipAddresses : List IpAddrEntry
deriving DecidableEq, Repr

/-- The Proxmox API as seen by the resolver: attempt `i`'s LXC interface
query and attempt `i`'s QEMU agent `network-get-interfaces` query (an
`.error` models the call raising). -/
structure ResolverEnv where
  lxcQuery : Nat → Except String (List LxcIface)
  vmAgentQuery : Nat → Except String (List VmIface)

/-- The LXC scan of one response: the first interface named `eth0` whose
`inet` host part (before `/`) is non-empty and not `0.0.0.0`. -/
def lxcFirstIp : List LxcIface → Option String
  | [] => none
  | i :: rest =>
    match i.inet with
    | some inet =>
      if i.name = "eth0" then
        let ip := beforeSlash inet
        if ip ≠ "" ∧ ip ≠ "0.0.0.0" then some ip else lxcFirstIp rest
      else lxcFirstIp rest
    | none => lxcFirstIp rest

/-- The inner scan of one QEMU interface's address list: the first
`ipv4` entry whose address is non-empty and does not start with `127.`. -/
def vmScanAddrs : List IpAddrEntry → Option String
  | [] => none
  | a :: rest =>
    if a.addrType = "ipv4" then
      if a.address ≠ "" ∧ ¬(pyStartsWith a.address "127." = true) then
        some a.address
      else vmScanAddrs rest
    else vmScanAddrs rest

/-- The QEMU scan of one agent response: interfaces named `eth0` or
`ens18`, searched with `vmScanAddrs`. -/
def vmFirstIp : List VmIface → Option String
  | [] => none
  | i :: rest =>
    if i.name = "eth0" ∨ i.name = "ens18" then
      match vmScanAddrs i.ipAddresses with
      | some ip => some ip
      | none => vmFirstIp rest
    else vmFirstIp rest

/-- The exhaustion message raised after the retry loop. -/
def couldNotRetrieveMsg (deploymentType vmId : String) (maxRetries : Nat) :
    String :=
  "Could not retrieve IP address for " ++ deploymentType ++ " " ++ vmId ++
    " after " ++ toString maxRetries ++ " attempts"

/-- What one attempt of the retry loop extracts (`none` = not ready /
query error, matching the code paths that fall through to the retry). -/
def attemptIp (deploymentType : String) (env : ResolverEnv) (i : Nat) :
    Option String :=
  if deploymentType = "lxc" then
    match env.lxcQuery i with
    | .error _ => none
    | .ok ifaces => lxcFirstIp ifaces
  else
    match env.vmAgentQuery i with
    | .error _ => none
    | .ok ifaces => vmFirstIp ifaces

/-- The retry loop of `_get_ip_from_proxmox`, from attempt `attempt`
upward.  Returns the number of queries performed together with the
result.  For the LXC kind a query exception at the last attempt re-raises
that exception; for the VM kind the inner `try/except` absorbs agent
exceptions into "not ready".  A fruitless last attempt falls through to
the `Could not retrieve` exception. -/
def resolveIpFrom (deploymentType vmId : String) (env : ResolverEnv)
    (maxRetries : Nat) (attempt : Nat) : Nat × Except String String :=
  if _h : attempt < maxRetries then
    if deploymentType = "lxc" then
      match env.lxcQuery attempt with
      | .error e =>
        if attempt < maxRetries - 1 then
          let r := resolveIpFrom deploymentType vmId env maxRetries (attempt + 1)
          (r.1 + 1, r.2)
        else (1, .error e)
      | .ok ifaces =>
        match lxcFirstIp ifaces with
        | some ip => (1, .ok ip)
        | none =>
          if attempt < maxRetries - 1 then
            let r := resolveIpFrom deploymentType vmId env maxRetries (attempt + 1)
            (r.1 + 1, r.2)
          else (1, .error (couldNotRetrieveMsg deploymentType vmId maxRetries))
    else
      let agentIfaces : List VmIface :=
        match env.vmAgentQuery attempt with
        | .error _ => []
        | .ok ifaces => ifaces
      match vmFirstIp agentIfaces with
      | some ip => (1, .ok ip)
      | none =>
        if attempt < maxRetries - 1 then
          let r := resolveIpFrom deploymentType vmId env maxRetries (attempt + 1)
          (r.1 + 1, r.2)
        else (1, .error (couldNotRetrieveMsg deploymentType vmId maxRetries))
  else (0, .error (couldNotRetrieveMsg deploymentType vmId maxRetries))
termination_by maxRetries - attempt
decreasing_by all_goals omega

/-- `_get_ip_from_proxmox(vm_id, deployment_type, max_retries=10)`:
query count and outcome. -/
def resolveIp (deploymentType vmId : String) (env : ResolverEnv)
    (maxRetries : Nat := 10) : Nat × Except String String :=
  resolveIpFrom deploymentType vmId env maxRetries 0

/-! ## Apply / destroy / remote-deploy engine

`TerraformManager.apply` (168-303), `.destroy` (305-366) and
`.deploy_application` (368-500).  Terraform process invocations and SSH
are modelled through explicit environments; exceptions through
`Except String`; the enclosing `try/except` of each public method through
a wrapper that turns an exception into `{'success': False, 'error': e}`. -/

/-- The dictionary shape the three public engine operations return:
`success`, and (when present) `error`, `ip_address`, `vm_id`,
`access_url`. -/
structure PhaseResult where
  success : Bool
  error : Option String := none
  ipAddress : Option String := none
  vmId : Option Nat := none
  accessUrl : Option String := none
deriving DecidableEq, Repr

/-- The Terraform / engine invocations a run performs, in order. -/
inductive TfOp
  | tfInit
  | wsList
  | wsNew (name : String)
  | wsSelect (name : String)
  | writeVarFile
  | plan
  | stateRm (addr : String)
  | tfApply
  | readOutputs
  | tfDestroy
  | wsDelete (name : String)
  | rmStateDir
deriving DecidableEq, Repr

/-- The part of the generated Terraform config the apply path consults:
`config['deployment_type']`. -/
structure TfConfig where
  deploymentType : String
deriving DecidableEq, Repr

/-- Stubbed results of the external calls `apply` makes, in program
order: init, workspace list/new/select, the first and (potential) retry
plan as `(returncode, stdout, stderr)`, apply, the two output values, and
the Proxmox queries used when the IP must be resolved. -/
structure ApplyEnv where
  initRc : Nat
  initStderr : String
  wsListStdout : String
  wsNewRc : Nat
  wsNewStderr : String
  wsSelectRc : Nat
  wsSelectStderr : String
  plan1Rc : Nat
  plan1Stdout : String
  plan1Stderr : String
  plan2Rc : Nat
  plan2Stdout : String
  plan2Stderr : String
  applyRc : Nat
  applyStdout : String
  applyStderr : String
  outVmId : Option Nat
  outIp : Option String
  resolver : ResolverEnv

/-- The state-drift signature test on a failed plan's stderr:
`"vm" in error_msg and "not found" in error_msg`. -/
def driftSignature (errorMsg : String) : Bool :=
  pyIn "vm" errorMsg && pyIn "not found" errorMsg

/-- `str(vm_id)` where `vm_id` came from the Terraform output map. -/
def showOptNat : Option Nat → String
  | none => "None"
  | some n => toString n

/-- The sentinel test before resolving the IP from Proxmox:
`ip_address in ['Check Proxmox Console', 'pending',
'Pending (Check Dashboard)', None] or not ip_address`. -/
def needsIpResolution : Option String → Bool
  | none => true
  | some s =>
    s = "Check Proxmox Console" || s = "pending" ||
      s = "Pending (Check Dashboard)" || s = ""

/-- The body of `TerraformManager.apply` up to its `try/except`: the
sequence of engine invocations performed and either the `(ip_address,
vm_id)` payload or the raised exception's message. -/
def applyInner (name : String) (config : TfConfig) (env : ApplyEnv) :
    List TfOp × Except String (String × Option Nat) :=
  -- terraform init
  if env.initRc ≠ 0 then
    ([.tfInit], .error ("Terraform init failed: " ++ env.initStderr))
  else
    -- workspace list / new / select
    let wsOps : List TfOp × Except String Unit :=
      if pyIn name env.wsListStdout then
        if env.wsSelectRc ≠ 0 then
          ([.wsList, .wsSelect name],
            .error ("Failed to select workspace: " ++ env.wsSelectStderr))
        else ([.wsList, .wsSelect name], .ok ())
      else
        if env.wsNewRc ≠ 0 then
          ([.wsList, .wsNew name],
            .error ("Failed to create workspace: " ++ env.wsNewStderr))
        else ([.wsList, .wsNew name], .ok ())
    match wsOps with
    | (ops, .error e) => (.tfInit :: ops, .error e)
    | (ops, .ok _) =>
      let pre := .tfInit :: ops ++ [.writeVarFile]
      -- plan, with the state-drift retry
      let planOps : List TfOp × Except String Unit :=
        if env.plan1Rc = 1 then
          if driftSignature env.plan1Stderr then
            let resourceAddr :=
              if config.deploymentType = "lxc" then
                "proxmox_lxc.deployment_lxc[0]"
              else "proxmox_vm_qemu.deployment_vm[0]"
            if env.plan2Rc = 1 then
              ([.plan, .stateRm resourceAddr, .plan],
                .error ("Terraform plan failed after retry: " ++
                  env.plan2Stderr ++ "\nOutput: " ++ env.plan2Stdout))
            else ([.plan, .stateRm resourceAddr, .plan], .ok ())
          else
            ([.plan], .error ("Terraform plan failed: " ++ env.plan1Stderr ++
              "\nOutput: " ++ env.plan1Stdout))
        else ([.plan], .ok ())
      match planOps with
      | (ops2, .error e) => (pre ++ ops2, .error e)
      | (ops2, .ok _) =>
        let pre2 := pre ++ ops2
        -- terraform apply
        if env.applyRc ≠ 0 then
          (pre2 ++ [.tfApply],
            .error ("Terraform apply failed: " ++ env.applyStderr ++
              "\nOutput: " ++ env.applyStdout))
        else
          -- outputs, then resolve the IP from Proxmox when needed
          let pre3 := pre2 ++ [.tfApply, .readOutputs]
          if needsIpResolution env.outIp then
            match (resolveIp config.deploymentType (showOptNat env.outVmId)
                env.resolver).2 with
            | .ok ip => (pre3, .ok (ip, env.outVmId))
            | .error e => (pre3, .error e)
          else
            (pre3, .ok ((env.outIp).getD "", env.outVmId))

/-- `TerraformManager.apply`: the `try/except` wrapper around
`applyInner`, returning the result dictionary. -/
def applyRun (name : String) (config : TfConfig) (env : ApplyEnv) :
    List TfOp × PhaseResult :=
  match applyInner name config env with
  | (ops, .ok (ip, vmId)) =>
    (ops, { success := true, ipAddress := some ip, vmId := vmId })
  | (ops, .error e) => (ops, { success := false, error := some e })

/-- Stubbed results of the external calls `destroy` makes: whether the
per-deployment `terraform.tfvars.json` exists, then the workspace-select
and destroy return codes. -/
structure DestroyEnv where
  varFileExists : Bool
  wsSelectRc : Nat
  wsSelectStderr : String
  destroyRc : Nat
  destroyStderr : String

/-- The body of `TerraformManager.destroy` up to its `try/except`. -/
def destroyInner (name : String) (env : DestroyEnv) :
    List TfOp × Except String Unit :=
  if ¬env.varFileExists then
    ([], .error ("No Terraform state found for " ++ name))
  else if env.wsSelectRc ≠ 0 then
    ([.wsSelect name],
      .error ("Failed to select workspace: " ++ env.wsSelectStderr))
  else if env.destroyRc ≠ 0 then
    ([.wsSelect name, .tfDestroy],
      .error ("Terraform destroy failed: " ++ env.destroyStderr))
  else
    ([.wsSelect name, .tfDestroy, .wsSelect "default", .wsDelete name,
      .rmStateDir], .ok ())

/-- `TerraformManager.destroy`: the `try/except` wrapper. -/
def destroyRun (name : String) (env : DestroyEnv) :
    List TfOp × PhaseResult :=
  match destroyInner name env with
  | (ops, .ok _) => (ops, { success := true })
  | (ops, .error e) => (ops, { success := false, error := some e })

/-- Stubbed results of the external calls `deploy_application` makes:
each SSH connection attempt's outcome (one attempt covers the whole
direct or jump-host-routed connect of that loop iteration) and each
executed command's `(exit_status, stdout, stderr)`. -/
structure DeployEnv where
  connAttempt : Nat → Except String Unit
  execResult : Nat → Nat × String × String

/-- The SSH wait-for-ready loop: `max_retries = 30` attempts; the last
attempt's failure raises `SSH connection failed after 30 attempts`. -/
def connectFrom (env : DeployEnv) (i : Nat) : Except String Unit :=
  if _h : i < 30 then
    match env.connAttempt i with
    | .ok _ => .ok ()
    | .error e =>
      if i = 30 - 1 then
        .error ("SSH connection failed after 30 attempts: " ++ e)
      else connectFrom env (i + 1)
  else .ok ()
termination_by 30 - i
decreasing_by omega

/-- The strictly sequential command execution: the first non-zero exit
status aborts with `Deployment command failed`. -/
def execCommands (env : DeployEnv) : Nat → List String → Except String Unit
  | _, [] => .ok ()
  | idx, _ :: rest =>
    let r := env.execResult idx
    if r.1 ≠ 0 then .error ("Deployment command failed: " ++ r.2.2)
    else execCommands env (idx + 1) rest

/-- The body of `TerraformManager.deploy_application` up to its
`try/except`: framework lookup, SSH wait loop, command build, sequential
execution, and the `access_url` on success. -/
def deployInner (ipAddress framework githubUrl : String)
    (envVars : List (String × String)) (env : DeployEnv) :
    Except String String :=
  match lookupFramework framework with
  | none => .error ("Unsupported framework: " ++ framework)
  | some fc =>
    match connectFrom env 0 with
    | .error e => .error e
    | .ok _ =>
      let commands := buildDeploymentCommands framework fc githubUrl envVars
      match execCommands env 0 commands with
      | .error e => .error e
      | .ok _ => .ok ("http://" ++ ipAddress ++ ":" ++ toString fc.port)

/-- `TerraformManager.deploy_application`: the `try/except` wrapper. -/
def deployRun (ipAddress framework githubUrl : String)
    (envVars : List (String × String)) (env : DeployEnv) : PhaseResult :=
  match deployInner ipAddress framework githubUrl envVars env with
  | .ok url => { success := true, accessUrl := some url }
  | .error e => { success := false, error := some e }

/-! ## Orchestration routes

`deploy_application` (backend/api/routes.py:46-190) and
`delete_deployment` (246-288).  The persistence layer is modelled as a
trace of committed record snapshots, so ordering claims are claims about
the trace. -/

/-- One observable event of a deployment flow: a committed snapshot of
the Deployment record (`db.session.commit()`) carrying the fields the
claims are about, or the start of a phase's work. -/
inductive OrchEvent
  | persist (status : DeploymentStatus) (error : Option String)
      (ip : Option String) (vmId : Option Nat)
  | workGenerateConfig
  | workApply
  | workDeploy
deriving DecidableEq, Repr

/-- The API response shape the claims consult. -/
structure RouteResponse where
  success : Bool
  error : Option String := none
deriving DecidableEq, Repr

/-- The deploy route (`deploy_application` in routes.py) for a request
that passed validation, as a function of the three collaborator
outcomes: `generate_config` (which raises or returns a config), the
`apply` result dictionary, and the `deploy_application` result
dictionary.  Returns the persistence/work trace and the response. -/
def deployRoute (genConfig : Except String TfConfig)
    (applyResult deployResult : PhaseResult) :
    List OrchEvent × RouteResponse :=
  let ev0 : OrchEvent := .persist .pending none none none
  match genConfig with
  | .error e =>
    -- generate_config raised: the outer except sets FAILED + str(e)
    ([ev0, .workGenerateConfig, .persist .failed (some e) none none],
      { success := false, error := some e })
  | .ok _ =>
    if applyResult.success then
      if deployResult.success then
        ([ev0, .workGenerateConfig, .persist .provisioning none none none,
          .workApply,
          .persist .deploying none applyResult.ipAddress applyResult.vmId,
          .workDeploy,
          .persist .running none applyResult.ipAddress applyResult.vmId],
          { success := true })
      else
        let msg := "Application deployment failed: " ++
          pyStrOfOpt deployResult.error
        ([ev0, .workGenerateConfig, .persist .provisioning none none none,
          .workApply,
          .persist .deploying none applyResult.ipAddress applyResult.vmId,
          .workDeploy,
          .persist .failed deployResult.error applyResult.ipAddress
            applyResult.vmId,
          .persist .failed (some msg) applyResult.ipAddress applyResult.vmId],
          { success := false, error := some msg })
    else
      let msg := "Infrastructure provisioning failed: " ++
        pyStrOfOpt applyResult.error
      ([ev0, .workGenerateConfig, .persist .provisioning none none none,
        .workApply,
        .persist .failed applyResult.error none none,
        .persist .failed (some msg) none none],
        { success := false, error := some msg })

/-- The persisted Deployment record fields the deletion claims consult. -/
structure DeploymentRec where
  name : String
  status : DeploymentStatus
  deletedAt : Option Nat
  ipAddress : Option String
  vmId : Option Nat
  errorMessage : Option String
deriving DecidableEq, Repr

/-- The delete route (`delete_deployment` in routes.py) for an existing
deployment: destroy first; only on success mark DELETED with
`deleted_at`; on failure leave the record unchanged and surface the
error. -/
def deleteRoute (rec : DeploymentRec) (env : DestroyEnv) (now : Nat) :
    DeploymentRec × RouteResponse :=
  let result := (destroyRun rec.name env).2
  if result.success then
    ({ rec with status := .deleted, deletedAt := some now },
      { success := true })
  else
    (rec, { success := false,
            error := some ("Failed to destroy infrastructure: " ++
              pyStrOfOpt result.error) })

/-- The last committed record snapshot of a trace, as
`(status, error, ip, vmId)`. -/
def lastPersist (trace : List OrchEvent) :
    Option (DeploymentStatus × Option String × Option String × Option Nat) :=
  (trace.filterMap (fun e =>
    match e with
    | .persist st err ip vm => some (st, err, ip, vm)
    | _ => none)).getLast?

/-- The statuses committed along a trace, in order. -/
def persistedStatuses (trace : List OrchEvent) : List DeploymentStatus :=
  trace.filterMap (fun e =>
    match e with
    | .persist st _ _ _ => some st
    | _ => none)

/-- How many `plan` invocations a trace contains. -/
def countPlans (ops : List TfOp) : Nat :=
  (ops.filter (fun o => o = .plan)).length

/-- How many `state rm` invocations a trace contains. -/
def countStateRm (ops : List TfOp) : Nat :=
  (ops.filter (fun o =>
    match o with
    | .stateRm _ => true
    | _ => false)).length

/-- A concrete apply environment whose first plan fails with a
state-drift error and whose retry plan fails the same way. -/
def c4DriftEnv : ApplyEnv where
  initRc := 0
  initStderr := ""
  wsListStdout := "default"
  wsNewRc := 0
  wsNewStderr := ""
  wsSelectRc := 0
  wsSelectStderr := ""
  plan1Rc := 1
  plan1Stdout := ""
  plan1Stderr := "Error: vm 105 not found"
  plan2Rc := 1
  plan2Stdout := ""
  plan2Stderr := "Error: vm 105 not found"
  applyRc := 0
  applyStdout := ""
  applyStderr := ""
  outVmId := some 105
  outIp := some "10.0.0.5"
  resolver := ⟨fun _ => .ok [], fun _ => .ok []⟩

/-- A concrete resolver environment whose very first LXC query reports a
loopback address on `eth0`. -/
def c5LoopbackEnv : ResolverEnv :=
  ⟨fun _ => .ok [⟨"eth0", some "127.0.0.1/8"⟩], fun _ => .ok []⟩

/-- A concrete resolver environment where the QEMU agent is not ready
for the first three polls and reports a usable address on the fourth. -/
def c5NotReadyEnv : ResolverEnv :=
  ⟨fun _ => .ok [],
   fun i => if i < 3 then .ok []
     else .ok [⟨"ens18", [⟨"ipv4", "192.168.100.7"⟩]⟩]⟩

/-- A concrete resolver environment that never yields a usable
address. -/
def c5NeverEnv : ResolverEnv :=
  ⟨fun _ => .ok [], fun _ => .ok []⟩

/-- A concrete apply environment whose `terraform init` fails. -/
def c10InitFailEnv : ApplyEnv where
  initRc := 1
  initStderr := "init exploded"
  wsListStdout := ""
  wsNewRc := 0
  wsNewStderr := ""
  wsSelectRc := 0
  wsSelectStderr := ""
  plan1Rc := 0
  plan1Stdout := ""
  plan1Stderr := ""
  plan2Rc := 0
  plan2Stdout := ""
  plan2Stderr := ""
  applyRc := 0
  applyStdout := ""
  applyStderr := ""
  outVmId := none
  outIp := none
  resolver := ⟨fun _ => .ok [], fun _ => .ok []⟩

/-- A concrete SSH environment where connection succeeds at once and
every command exits 0. -/
def c10SshOkEnv : DeployEnv :=
  ⟨fun _ => .ok (), fun _ => (0, "", "")⟩

instance (n h : String) : Decidable (SubStr n h) := by
  unfold SubStr; infer_instance

instance (c : Char) : Decidable (ValidNameChar c) := by
  unfold ValidNameChar; infer_instance

instance (c : Char) : Decidable (DnsSafeChar c) := by
  unfold DnsSafeChar; infer_instance

theorem tryRandomFrom_mem (used : List Nat) (rand : Nat → Nat) :
    ∀ (fuel i v : Nat), tryRandomFrom used rand i fuel = some v →
      100 ≤ v ∧ v ≤ 999 ∧ v ∉ used := by
  intro fuel
  induction fuel with
  | zero => intro i v h; simp [tryRandomFrom] at h
  | succ n ih =>
    intro i v h
    simp only [tryRandomFrom] at h
    split at h
    · exact ih (i + 1) v h
    · rename_i hmem
      obtain rfl : 100 + rand i % 900 = v := by simpa using h
      refine ⟨by omega, by have := Nat.mod_lt (rand i) (y := 900) (by omega); omega, hmem⟩

theorem linearFrom_mem (used : List Nat) :
    ∀ (fuel v r : Nat), linearFrom used v fuel = some r →
      v ≤ r ∧ r < v + fuel ∧ r ∉ used := by
  intro fuel
  induction fuel with
  | zero => intro v r h; simp [linearFrom] at h
  | succ n ih =>
    intro v r h
    simp only [linearFrom] at h
    split at h
    · obtain ⟨h1, h2, h3⟩ := ih (v + 1) r h
      exact ⟨by omega, by omega, h3⟩
    · rename_i hmem
      obtain rfl : v = r := by simpa using h
      exact ⟨le_refl _, by omega, hmem⟩

theorem linearFrom_none (used : List Nat) :
    ∀ (fuel v : Nat), linearFrom used v fuel = none →
      ∀ r, v ≤ r → r < v + fuel → r ∈ used := by
  intro fuel
  induction fuel with
  | zero => intro v _ r h1 h2; omega
  | succ n ih =>
    intro v h r h1 h2
    simp only [linearFrom] at h
    split at h
    · rename_i hmem
      rcases Nat.eq_or_lt_of_le h1 with rfl | hlt
      · exact hmem
      · exact ih (v + 1) h r hlt (by omega)
    · simp at h

theorem linearFrom_some_of_free (used : List Nat) :
    ∀ (fuel v : Nat), (∃ r, v ≤ r ∧ r < v + fuel ∧ r ∉ used) →
      ∃ r, linearFrom used v fuel = some r := by
  intro fuel v h
  rcases hc : linearFrom used v fuel with _ | r
  · obtain ⟨r, h1, h2, h3⟩ := h
    exact absurd (linearFrom_none used fuel v hc r h1 h2) h3
  · exact ⟨r, rfl⟩

/-- Correctness of the allocator: any returned ID is in [100, 999] and
collides with neither the database IDs nor the Proxmox IDs, and the
allocator fails (with the exhaustion error) exactly when every integer in
[100, 999] is already used. -/
theorem generateVmId_spec (dbVmIds proxmoxVmIds : List Nat) (rand : Nat → Nat) :
    (∀ v, generateVmId dbVmIds proxmoxVmIds rand = .ok v →
      100 ≤ v ∧ v ≤ 999 ∧ v ∉ dbVmIds ∧ v ∉ proxmoxVmIds) ∧
    ((generateVmId dbVmIds proxmoxVmIds rand).isOk = false ↔
      ∀ v, 100 ≤ v → v ≤ 999 → v ∈ dbVmIds ∨ v ∈ proxmoxVmIds) := by
  constructor
  · intro v h
    unfold generateVmId at h
    dsimp only at h
    split at h
    · rename_i v' hrand
      obtain ⟨h1, h2, h3⟩ := tryRandomFrom_mem _ rand 100 0 v' hrand
      obtain rfl : v' = v := by simpa using h
      simp only [List.mem_append, not_or] at h3
      exact ⟨h1, h2, h3.1, h3.2⟩
    · split at h
      · rename_i v' hlin
        obtain ⟨h1, h2, h3⟩ := linearFrom_mem _ 900 100 v' hlin
        obtain rfl : v' = v := by simpa using h
        simp only [List.mem_append, not_or] at h3
        exact ⟨h1, by omega, h3.1, h3.2⟩
      · simp at h
  · constructor
    · intro herr v h1 h2
      unfold generateVmId at herr
      dsimp only at herr
      split at herr
      · simp [Except.isOk, Except.toBool] at herr
      · split at herr
        · simp [Except.isOk, Except.toBool] at herr
        · rename_i hlin
          have := linearFrom_none _ 900 100 hlin v h1 (by omega)
          simpa using this
    · intro hall
      unfold generateVmId
      dsimp only
      have husedAll : ∀ r, 100 ≤ r → r ≤ 999 → r ∈ dbVmIds ++ proxmoxVmIds := by
        intro r h1 h2
        simpa using hall r h1 h2
      have hlin : linearFrom (dbVmIds ++ proxmoxVmIds) 100 900 = none := by
        rcases hc : linearFrom (dbVmIds ++ proxmoxVmIds) 100 900 with _ | r
        · rfl
        · obtain ⟨h1, h2, h3⟩ := linearFrom_mem _ 900 100 r hc
          exact absurd (husedAll r h1 (by omega)) h3
      have hrand : tryRandomFrom (dbVmIds ++ proxmoxVmIds) rand 0 100 = none := by
        have hgen : ∀ (fuel i : Nat),
            tryRandomFrom (dbVmIds ++ proxmoxVmIds) rand i fuel = none := by
          intro fuel
          induction fuel with
          | zero => intro i; rfl
          | succ n ih =>
            intro i
            simp only [tryRandomFrom]
            rw [if_pos]
            · exact ih (i + 1)
            · exact husedAll _ (by omega)
                (by have := Nat.mod_lt (rand i) (y := 900) (by omega); omega)
        exact hgen 100 0
      rw [hrand, hlin]
      rfl

/-! ### Character-level lemmas about `Char.toLower` -/

theorem char_toNat_ofNat (n : Nat) (h : n.isValidChar) :
    (Char.ofNat n).toNat = n := by
  unfold Char.ofNat
  rw [dif_pos h]
  rfl

theorem toLower_idem (c : Char) :
    Char.toLower (Char.toLower c) = Char.toLower c := by
  unfold Char.toLower
  by_cases h : c.toNat ≥ 65 ∧ c.toNat ≤ 90
  · have hv : (c.toNat + 32).isValidChar := by left; omega
    rw [if_pos h, if_neg]
    rw [char_toNat_ofNat _ hv]
    omega
  · rw [if_neg h, if_neg h]

theorem toLower_toNat_of_upper (c : Char) (h : c.toNat ≥ 65 ∧ c.toNat ≤ 90) :
    (Char.toLower c).toNat = c.toNat + 32 := by
  unfold Char.toLower
  rw [if_pos h, char_toNat_ofNat]
  left; omega

theorem toLower_eq_self (c : Char) (h : ¬(c.toNat ≥ 65 ∧ c.toNat ≤ 90)) :
    Char.toLower c = c := by
  unfold Char.toLower
  rw [if_neg h]

theorem toLower_not_upper (c : Char) :
    ¬(65 ≤ (Char.toLower c).toNat ∧ (Char.toLower c).toNat ≤ 90) := by
  by_cases h : c.toNat ≥ 65 ∧ c.toNat ≤ 90
  · rw [toLower_toNat_of_upper c h]; omega
  · rw [toLower_eq_self c h]; omega

theorem toLower_toNat_ne_95 (c : Char) (h : c.toNat ≠ 95) :
    (Char.toLower c).toNat ≠ 95 := by
  by_cases hu : c.toNat ≥ 65 ∧ c.toNat ≤ 90
  · rw [toLower_toNat_of_upper c hu]; omega
  · rw [toLower_eq_self c hu]; exact h

theorem replaceUnderscore_eq_self (c : Char) (h : c ≠ '_') :
    replaceUnderscore c = c := by
  unfold replaceUnderscore
  rw [if_neg h]

theorem replaceUnderscore_toNat_ne_95 (c : Char) :
    (replaceUnderscore c).toNat ≠ 95 := by
  unfold replaceUnderscore
  by_cases h : c = '_'
  · rw [if_pos h]; decide
  · rw [if_neg h]
    intro hc
    exact h (Char.eq_of_val_eq (UInt32.ext hc))

/-! ### Sanitizer lemmas -/

theorem sanitizeHostname_no_underscore (name : List Char) :
    '_' ∉ sanitizeHostname name := by
  unfold sanitizeHostname
  intro hmem
  simp only [List.map_map, List.mem_map, Function.comp] at hmem
  obtain ⟨c, _, hc⟩ := hmem
  have h95 : (Char.toLower (replaceUnderscore c)).toNat = 95 := by
    rw [hc]; decide
  exact toLower_toNat_ne_95 _ (replaceUnderscore_toNat_ne_95 c) h95

theorem sanitizeHostname_no_upper (name : List Char) :
    ∀ c ∈ sanitizeHostname name,
      ¬(65 ≤ c.toNat ∧ c.toNat ≤ 90) := by
  unfold sanitizeHostname
  intro c hmem
  simp only [List.map_map, List.mem_map, Function.comp] at hmem
  obtain ⟨d, _, hd⟩ := hmem
  rw [← hd]
  exact toLower_not_upper _

theorem sanitizeHostname_idem (name : List Char) :
    sanitizeHostname (sanitizeHostname name) = sanitizeHostname name := by
  unfold sanitizeHostname
  simp only [List.map_map]
  apply List.map_congr_left
  intro c _
  simp only [Function.comp]
  have hne : replaceUnderscore (Char.toLower (replaceUnderscore c)) =
      Char.toLower (replaceUnderscore c) := by
    apply replaceUnderscore_eq_self
    intro hc
    have h95 : (Char.toLower (replaceUnderscore c)).toNat = 95 := by
      rw [hc]; decide
    exact toLower_toNat_ne_95 _ (replaceUnderscore_toNat_ne_95 c) h95
  rw [hne, toLower_idem]

theorem sanitizeHostname_dns_safe (name : List Char)
    (hvalid : ∀ c ∈ name, ValidNameChar c) :
    ∀ c ∈ sanitizeHostname name, DnsSafeChar c := by
  unfold sanitizeHostname
  intro c hmem
  simp only [List.map_map, List.mem_map, Function.comp] at hmem
  obtain ⟨d, hdmem, hd⟩ := hmem
  subst hd
  rcases hvalid d hdmem with h | h | h | h | h
  · -- uppercase letter: unchanged by replace, lowered by lower
    have hrd : replaceUnderscore d = d := by
      unfold replaceUnderscore
      rw [if_neg]
      intro hc
      subst hc
      revert h
      decide
    rw [hrd, DnsSafeChar, toLower_toNat_of_upper d h]
    left; omega
  all_goals {
    have hrd : (replaceUnderscore d).toNat = if d.toNat = 95 then 45 else d.toNat := by
      unfold replaceUnderscore
      by_cases hc : d = '_'
      · subst hc; decide
      · rw [if_neg hc, if_neg]
        intro h95
        exact hc (Char.eq_of_val_eq (UInt32.ext h95))
    rw [DnsSafeChar, toLower_eq_self]
    · rw [hrd]
      split <;> omega
    · rw [hrd]
      split <;> omega
  }

/-! ### Resolver counting lemmas -/

theorem resolveIpFrom_first_success (dtype vmId : String) (env : ResolverEnv)
    (maxRetries : Nat) :
    ∀ (d attempt k : Nat), k = attempt + d → k < maxRetries →
      (∀ j, attempt ≤ j → j < k → attemptIp dtype env j = none) →
      ∀ ip, attemptIp dtype env k = some ip →
      resolveIpFrom dtype vmId env maxRetries attempt = (d + 1, .ok ip) := by
  intro d
  induction d with
  | zero =>
    intro attempt k hk hlt hnone ip hip
    obtain rfl : k = attempt := by omega
    unfold resolveIpFrom
    rw [dif_pos hlt]
    unfold attemptIp at hip
    by_cases hd : dtype = "lxc"
    · rw [if_pos hd] at hip ⊢
      rcases hq : env.lxcQuery k with e | ifaces
      · rw [hq] at hip; simp at hip
      · rw [hq] at hip
        dsimp only at hip
        simp only [hq, hip]
    · rw [if_neg hd] at hip ⊢
      rcases hq : env.vmAgentQuery k with e | ifaces
      · rw [hq] at hip; simp at hip
      · rw [hq] at hip
        dsimp only at hip
        simp only [hq, hip]
  | succ n ih =>
    intro attempt k hk hlt hnone ip hip
    have hlt0 : attempt < maxRetries := by omega
    have hlt1 : attempt < maxRetries - 1 := by omega
    have h0 : attemptIp dtype env attempt = none :=
      hnone attempt le_rfl (by omega)
    have hrec : resolveIpFrom dtype vmId env maxRetries (attempt + 1) =
        (n + 1, .ok ip) := by
      refine ih (attempt + 1) k (by omega) hlt ?_ ip hip
      intro j hj1 hj2
      exact hnone j (by omega) hj2
    unfold resolveIpFrom
    rw [dif_pos hlt0]
    unfold attemptIp at h0
    by_cases hd : dtype = "lxc"
    · rw [if_pos hd] at h0 ⊢
      rcases hq : env.lxcQuery attempt with e | ifaces
      · simp only [hq]
        rw [if_pos hlt1, hrec]
      · rw [hq] at h0
        dsimp only at h0
        simp only [hq, h0]
        rw [if_pos hlt1, hrec]
    · rw [if_neg hd] at h0 ⊢
      rcases hq : env.vmAgentQuery attempt with e | ifaces
      · simp only [hq, vmFirstIp]
        rw [if_pos hlt1, hrec]
      · rw [hq] at h0
        dsimp only at h0
        simp only [hq, h0]
        rw [if_pos hlt1, hrec]

theorem resolveIpFrom_exhausted (dtype vmId : String) (env : ResolverEnv)
    (maxRetries : Nat) :
    ∀ (d attempt : Nat), attempt + d + 1 = maxRetries →
      (∀ j, attempt ≤ j → j < maxRetries → attemptIp dtype env j = none) →
      ∃ e, resolveIpFrom dtype vmId env maxRetries attempt = (d + 1, .error e) := by
  intro d
  induction d with
  | zero =>
    intro attempt hk hnone
    have hlt : attempt < maxRetries := by omega
    have hnot : ¬(attempt < maxRetries - 1) := by omega
    have h0 : attemptIp dtype env attempt = none :=
      hnone attempt le_rfl (by omega)
    unfold resolveIpFrom
    rw [dif_pos hlt]
    unfold attemptIp at h0
    by_cases hd : dtype = "lxc"
    · rw [if_pos hd] at h0 ⊢
      rcases hq : env.lxcQuery attempt with e | ifaces
      · simp only [hq]
        rw [if_neg hnot]
        exact ⟨e, rfl⟩
      · rw [hq] at h0
        dsimp only at h0
        simp only [hq, h0]
        rw [if_neg hnot]
        exact ⟨_, rfl⟩
    · rw [if_neg hd] at h0 ⊢
      rcases hq : env.vmAgentQuery attempt with e | ifaces
      · simp only [hq, vmFirstIp]
        rw [if_neg hnot]
        exact ⟨_, rfl⟩
      · rw [hq] at h0
        dsimp only at h0
        simp only [hq, h0]
        rw [if_neg hnot]
        exact ⟨_, rfl⟩
  | succ n ih =>
    intro attempt hk hnone
    have hlt : attempt < maxRetries := by omega
    have hlt1 : attempt < maxRetries - 1 := by omega
    have h0 : attemptIp dtype env attempt = none :=
      hnone attempt le_rfl (by omega)
    obtain ⟨e, hrec⟩ := ih (attempt + 1) (by omega)
      (fun j hj1 hj2 => hnone j (by omega) hj2)
    unfold resolveIpFrom
    rw [dif_pos hlt]
    unfold attemptIp at h0
    refine ⟨e, ?_⟩
    by_cases hd : dtype = "lxc"
    · rw [if_pos hd] at h0 ⊢
      rcases hq : env.lxcQuery attempt with e' | ifaces
      · simp only [hq]
        rw [if_pos hlt1, hrec]
      · rw [hq] at h0
        dsimp only at h0
        simp only [hq, h0]
        rw [if_pos hlt1, hrec]
    · rw [if_neg hd] at h0 ⊢
      rcases hq : env.vmAgentQuery attempt with e' | ifaces
      · simp only [hq, vmFirstIp]
        rw [if_pos hlt1, hrec]
      · rw [hq] at h0
        dsimp only at h0
        simp only [hq, h0]
        rw [if_pos hlt1, hrec]

/-! ### Claim C1 -/

/-- C1: in every deployment flow whose infrastructure-apply phase fails
(the flow reached the apply call, and the apply result dictionary has
`success = False`), the last committed Deployment snapshot has status
FAILED with a non-null error message, no RUNNING status is ever
committed anywhere in the flow, and the request fails. -/
theorem claim_C1_apply_failure_leaves_failed (cfg : TfConfig)
    (applyResult deployResult : PhaseResult)
    (hfail : applyResult.success = false) :
    (∃ msg, lastPersist (deployRoute (.ok cfg) applyResult deployResult).1 =
      some (.failed, some msg, none, none)) ∧
    DeploymentStatus.running ∉
      persistedStatuses (deployRoute (.ok cfg) applyResult deployResult).1 ∧
    (deployRoute (.ok cfg) applyResult deployResult).2.success = false := by
  refine ⟨⟨"Infrastructure provisioning failed: " ++ pyStrOfOpt applyResult.error, ?_⟩, ?_, ?_⟩ <;>
    simp [deployRoute, hfail, lastPersist, persistedStatuses]

/-- Witness for C1: a concrete flow where apply fails with error
`boom`. -/
theorem claim_C1_witness :
    (∃ msg, lastPersist (deployRoute (.ok ⟨"lxc"⟩)
      ⟨false, some "boom", none, none, none⟩
      ⟨true, none, none, none, none⟩).1 = some (.failed, some msg, none, none)) ∧
    DeploymentStatus.running ∉
      persistedStatuses (deployRoute (.ok ⟨"lxc"⟩)
        ⟨false, some "boom", none, none, none⟩
        ⟨true, none, none, none, none⟩).1 ∧
    (deployRoute (.ok ⟨"lxc"⟩) ⟨false, some "boom", none, none, none⟩
      ⟨true, none, none, none, none⟩).2.success = false :=
  claim_C1_apply_failure_leaves_failed ⟨"lxc"⟩
    ⟨false, some "boom", none, none, none⟩
    ⟨true, none, none, none, none⟩ rfl

/-! ### Claim C2 -/

/-- C2: every end-to-end successful flow commits exactly the snapshots
PENDING, PROVISIONING, DEPLOYING (with the apply result's ip_address and
vm_id), RUNNING, in that order, and each status is committed before the
work of the following phase begins: the full trace is PENDING-commit,
config generation, PROVISIONING-commit, apply, DEPLOYING-commit, remote
deployment, RUNNING-commit. -/
theorem claim_C2_success_flow_order (cfg : TfConfig)
    (applyResult deployResult : PhaseResult)
    (ha : applyResult.success = true) (hd : deployResult.success = true) :
    (deployRoute (.ok cfg) applyResult deployResult).1 =
      [.persist .pending none none none, .workGenerateConfig,
       .persist .provisioning none none none, .workApply,
       .persist .deploying none applyResult.ipAddress applyResult.vmId,
       .workDeploy,
       .persist .running none applyResult.ipAddress applyResult.vmId] ∧
    persistedStatuses (deployRoute (.ok cfg) applyResult deployResult).1 =
      [.pending, .provisioning, .deploying, .running] ∧
    (deployRoute (.ok cfg) applyResult deployResult).2.success = true := by
  refine ⟨?_, ?_, ?_⟩ <;> simp [deployRoute, ha, hd, persistedStatuses]

/-- Witness for C2: a concrete fully successful flow. -/
theorem claim_C2_witness :
    (deployRoute (.ok ⟨"lxc"⟩)
        ⟨true, none, some "192.168.100.7", some 105, none⟩
        ⟨true, none, none, none, some "http://192.168.100.7:5000"⟩).1 =
      [.persist .pending none none none, .workGenerateConfig,
       .persist .provisioning none none none, .workApply,
       .persist .deploying none (some "192.168.100.7") (some 105),
       .workDeploy,
       .persist .running none (some "192.168.100.7") (some 105)] ∧
    persistedStatuses (deployRoute (.ok ⟨"lxc"⟩)
        ⟨true, none, some "192.168.100.7", some 105, none⟩
        ⟨true, none, none, none, some "http://192.168.100.7:5000"⟩).1 =
      [.pending, .provisioning, .deploying, .running] ∧
    (deployRoute (.ok ⟨"lxc"⟩)
        ⟨true, none, some "192.168.100.7", some 105, none⟩
        ⟨true, none, none, none, some "http://192.168.100.7:5000"⟩).2.success =
      true :=
  claim_C2_success_flow_order ⟨"lxc"⟩
    ⟨true, none, some "192.168.100.7", some 105, none⟩
    ⟨true, none, none, none, some "http://192.168.100.7:5000"⟩ rfl rfl

/-! ### Claim C6 -/

/-- C6: a deletion marks the record DELETED (with `deleted_at`) only when
the destroy succeeded; when destroy fails — in particular when no
variable file exists for the workspace, which fails with the
`No Terraform state found` error — the record is left completely
unchanged and the error is surfaced in the response. -/
theorem claim_C6_delete_requires_destroy (rec : DeploymentRec)
    (env : DestroyEnv) (now : Nat) :
    ((destroyRun rec.name env).2.success = true →
      (deleteRoute rec env now).1 =
        { rec with status := .deleted, deletedAt := some now } ∧
      (deleteRoute rec env now).2.success = true) ∧
    ((destroyRun rec.name env).2.success = false →
      (deleteRoute rec env now).1 = rec ∧
      (deleteRoute rec env now).2.success = false ∧
      ((deleteRoute rec env now).2.error).isSome = true) ∧
    (env.varFileExists = false →
      (destroyRun rec.name env).2.success = false ∧
      (destroyRun rec.name env).2.error =
        some ("No Terraform state found for " ++ rec.name)) := by
  refine ⟨?_, ?_, ?_⟩
  · intro h
    constructor <;> simp [deleteRoute, h]
  · intro h
    refine ⟨?_, ?_, ?_⟩ <;> simp [deleteRoute, h]
  · intro h
    constructor <;> simp [destroyRun, destroyInner, h]

/-- Witness for C6: deleting the deployment `demo` when its variable
file is missing leaves destroy failing with `No Terraform state
found`. -/
theorem claim_C6_witness :
    (destroyRun "demo" ⟨false, 0, "", 0, ""⟩).2.success = false ∧
    (destroyRun "demo" ⟨false, 0, "", 0, ""⟩).2.error =
      some ("No Terraform state found for " ++ "demo") :=
  (claim_C6_delete_requires_destroy
    ⟨"demo", .running, none, some "10.0.0.5", some 105, none⟩
    ⟨false, 0, "", 0, ""⟩ 0).2.2 rfl

/-! ### Claim C3 -/

/-- C3: the allocator draws from the union of the IDs recorded against
non-deleted Deployments (`get_used_vm_ids`) and the IDs the
virtualization API reports, returns an ID in [100, 999] outside that
union, and raises the exhaustion error exactly when every integer in
[100, 999] is in the union.  (`generateVmId` performs up to 100 random
picks before its deterministic linear scan, mirroring the source.) -/
theorem claim_C3_allocator (dbRows : List DbRow) (proxmoxIds : List Nat)
    (rand : Nat → Nat) :
    (∀ v, generateVmId (getUsedVmIds dbRows) proxmoxIds rand = .ok v →
      100 ≤ v ∧ v ≤ 999 ∧ v ∉ getUsedVmIds dbRows ∧ v ∉ proxmoxIds) ∧
    ((generateVmId (getUsedVmIds dbRows) proxmoxIds rand).isOk = false ↔
      ∀ v, 100 ≤ v → v ≤ 999 →
        v ∈ getUsedVmIds dbRows ∨ v ∈ proxmoxIds) :=
  generateVmId_spec (getUsedVmIds dbRows) proxmoxIds rand

/-- Witness for C3: with rows {vm_id 100 running, vm_id 101 deleted} and
Proxmox IDs {102}, the allocator returns 101 (the deleted row's ID is
reusable), which is in range and outside both used sets. -/
theorem claim_C3_witness :
    100 ≤ 101 ∧ 101 ≤ 999 ∧
    101 ∉ getUsedVmIds [⟨some 100, "running"⟩, ⟨some 101, "deleted"⟩] ∧
    101 ∉ [102] :=
  (claim_C3_allocator [⟨some 100, "running"⟩, ⟨some 101, "deleted"⟩] [102]
    (fun _ => 0)).1 101 rfl

/-! ### Claim C7 -/

/-- C7 counterexample: the claim asserts that for every name containing
spaces, underscores, or uppercase letters the sanitized hostname has no
spaces remaining and is DNS-token-safe; but `generate_config` sanitizes
with `name.replace('_', '-').lower()`, which leaves spaces in place:
"Demo App" (which contains a space and uppercase letters) becomes
"demo app", which still contains a space, a character that is not
DNS-token-safe. -/
theorem claim_C7_counterexample :
    sanitizeHostname ("Demo App".toList) = "demo app".toList ∧
    ' ' ∈ sanitizeHostname ("Demo App".toList) ∧
    ¬DnsSafeChar ' ' ∧ ' ' ∈ "Demo App".toList := by
  decide

/-- C7 amended: the sanitized hostname is idempotent under
re-sanitization, contains no underscore (underscores become hyphens) and
no uppercase letter, and is DNS-token-safe whenever the input name is
made of the characters the request validator admits
(`^[a-zA-Z0-9_-]{3,50}$`, which excludes spaces); spaces, however, are
left in place, not hyphenated. -/
theorem claim_C7_sanitize_amended (name : List Char) :
    sanitizeHostname (sanitizeHostname name) = sanitizeHostname name ∧
    '_' ∉ sanitizeHostname name ∧
    (∀ c ∈ sanitizeHostname name, ¬(65 ≤ c.toNat ∧ c.toNat ≤ 90)) ∧
    ((∀ c ∈ name, ValidNameChar c) →
      ∀ c ∈ sanitizeHostname name, DnsSafeChar c) ∧
    (' ' ∈ name → ' ' ∈ sanitizeHostname name) := by
  refine ⟨sanitizeHostname_idem name, sanitizeHostname_no_underscore name,
    sanitizeHostname_no_upper name, sanitizeHostname_dns_safe name, ?_⟩
  intro h
  unfold sanitizeHostname
  simp only [List.map_map, List.mem_map, Function.comp]
  exact ⟨' ', h, by decide⟩

/-- Witness for C7: the validator-admissible name "My_App" sanitizes to
a DNS-token-safe hostname, and the space of "Demo App" survives
sanitization. -/
theorem claim_C7_witness :
    (∀ c ∈ sanitizeHostname ("My_App".toList), DnsSafeChar c) ∧
    ' ' ∈ sanitizeHostname ("Demo App".toList) :=
  ⟨(claim_C7_sanitize_amended ("My_App".toList)).2.2.2.1 (by decide),
   (claim_C7_sanitize_amended ("Demo App".toList)).2.2.2.2 (by decide)⟩

/-! ### Claim C4 -/

theorem countPlans_append (a b : List TfOp) :
    countPlans (a ++ b) = countPlans a + countPlans b := by
  simp [countPlans, List.filter_append]

theorem countStateRm_append (a b : List TfOp) :
    countStateRm (a ++ b) = countStateRm a + countStateRm b := by
  simp [countStateRm, List.filter_append]

/-- C4: when a plan fails (exit code 1) and its error text matches the
state-drift signature (`"vm" in error_msg and "not found" in
error_msg`), the stale resource (chosen per deployment kind) is removed
from state and the plan is run exactly once more — two plan invocations,
one `state rm` — and if the retry also fails the failure is surfaced;
when the error text does not match the signature, no retry and no
`state rm` occur and the failure is surfaced immediately.  The
hypotheses state that the run reached the plan step (init succeeded and
the workspace create-or-select succeeded). -/
theorem claim_C4_plan_drift_retry (name : String) (config : TfConfig)
    (env : ApplyEnv) (hinit : env.initRc = 0)
    (hws : (if pyIn name env.wsListStdout then env.wsSelectRc
      else env.wsNewRc) = 0)
    (hplan1 : env.plan1Rc = 1) :
    (driftSignature env.plan1Stderr = true →
      countPlans (applyInner name config env).1 = 2 ∧
      countStateRm (applyInner name config env).1 = 1 ∧
      (env.plan2Rc = 1 →
        (applyInner name config env).2 =
          .error ("Terraform plan failed after retry: " ++ env.plan2Stderr ++
            "\nOutput: " ++ env.plan2Stdout) ∧
        (applyRun name config env).2.success = false)) ∧
    (driftSignature env.plan1Stderr = false →
      countPlans (applyInner name config env).1 = 1 ∧
      countStateRm (applyInner name config env).1 = 0 ∧
      (applyInner name config env).2 =
        .error ("Terraform plan failed: " ++ env.plan1Stderr ++
          "\nOutput: " ++ env.plan1Stdout) ∧
      (applyRun name config env).2.success = false) := by
  by_cases hlist : pyIn name env.wsListStdout
  all_goals
    first
    | (have hsel : env.wsSelectRc = 0 := by simpa [hlist] using hws)
    | (have hsel : env.wsNewRc = 0 := by simpa [hlist] using hws)
  all_goals constructor
  all_goals intro hdrift
  -- non-drift branches surface immediately
  all_goals
    try (refine ⟨?_, ?_, ?_, ?_⟩ <;>
      simp [applyInner, applyRun, hinit, hlist, hsel, hplan1, hdrift,
        countPlans, countStateRm])
  -- drift branches: case on the retry plan and the later phases
  all_goals refine ⟨?_, ?_, ?_⟩
  all_goals
    try (intro hplan2; constructor <;>
      simp [applyInner, applyRun, hinit, hlist, hsel, hplan1, hdrift, hplan2,
        countPlans, countStateRm])
  all_goals by_cases hplan2 : env.plan2Rc = 1
  all_goals
    try (simp [applyInner, applyRun, hinit, hlist, hsel, hplan1, hdrift,
      hplan2, countPlans, countStateRm]; done)
  all_goals by_cases happly : env.applyRc = 0
  all_goals
    try (simp [applyInner, applyRun, hinit, hlist, hsel, hplan1, hdrift,
      hplan2, happly, countPlans, countStateRm]; done)
  all_goals by_cases hneed : needsIpResolution env.outIp = true
  all_goals
    rcases hres : (resolveIp config.deploymentType (showOptNat env.outVmId)
      env.resolver).2 with e | ip
  all_goals
    simp [applyInner, applyRun, hinit, hlist, hsel, hplan1, hdrift, hplan2,
      happly, hneed, hres, countPlans, countStateRm]

/-- Witness for C4: a concrete run whose first plan fails with
`Error: vm 105 not found` (drift signature) and whose retry plan fails
identically: two plans, one `state rm`, failure surfaced. -/
theorem claim_C4_witness :
    countPlans (applyInner "demo" ⟨"lxc"⟩ c4DriftEnv).1 = 2 ∧
    countStateRm (applyInner "demo" ⟨"lxc"⟩ c4DriftEnv).1 = 1 ∧
    ((applyInner "demo" ⟨"lxc"⟩ c4DriftEnv).2 =
      .error ("Terraform plan failed after retry: " ++
        "Error: vm 105 not found" ++ "\nOutput: " ++ "") ∧
     (applyRun "demo" ⟨"lxc"⟩ c4DriftEnv).2.success = false) := by
  have h := (claim_C4_plan_drift_retry "demo" ⟨"lxc"⟩ c4DriftEnv rfl
    (by decide) rfl).1 (by decide)
  exact ⟨h.1, h.2.1, h.2.2 rfl⟩

/-! ### Claim C5 -/

/-- C5 counterexample: the claim says the resolver only returns usable
non-loopback IPv4 addresses, but for the container kind the code accepts
any `eth0` address other than `0.0.0.0`: a first query reporting
`127.0.0.1/8` on `eth0` makes `resolveIp` return the loopback address
`127.0.0.1`. -/
theorem claim_C5_counterexample :
    resolveIp "lxc" "105" c5LoopbackEnv 10 = (1, .ok "127.0.0.1") ∧
    pyStartsWith "127.0.0.1" "127." = true := by
  constructor
  · have h := resolveIpFrom_first_success "lxc" "105" c5LoopbackEnv 10 0 0 0
      rfl (by omega) (fun j h1 h2 => absurd h2 (by omega)) "127.0.0.1"
      (by decide)
    simpa [resolveIp] using h
  · decide

/-- C5 amended: the resolver returns the first address its per-kind
acceptance rule admits (containers: first `eth0` inet other than empty
or `0.0.0.0`, loopback NOT excluded; VMs: first `ipv4` on `eth0`/`ens18`
not starting with `127.`), performing exactly as many queries as polls
needed; when no query within the budget yields an accepted address it
fails after exactly `maxRetries` queries (default 10); both transient
query errors and not-ready responses count against the budget. -/
theorem claim_C5_resolver_amended (dtype vmId : String) (env : ResolverEnv)
    (maxRetries : Nat) :
    (∀ k ip, k < maxRetries → (∀ j, j < k → attemptIp dtype env j = none) →
      attemptIp dtype env k = some ip →
      resolveIp dtype vmId env maxRetries = (k + 1, .ok ip)) ∧
    ((∀ j, j < maxRetries → attemptIp dtype env j = none) →
      (resolveIp dtype vmId env maxRetries).1 = maxRetries ∧
      ∃ e, (resolveIp dtype vmId env maxRetries).2 = .error e) ∧
    resolveIp dtype vmId env = resolveIp dtype vmId env 10 := by
  refine ⟨?_, ?_, rfl⟩
  · intro k ip hk hnone hip
    have h := resolveIpFrom_first_success dtype vmId env maxRetries k 0 k
      (by omega) hk (fun j _ h2 => hnone j h2) ip hip
    simpa [resolveIp] using h
  · intro hnone
    rcases Nat.eq_zero_or_pos maxRetries with h0 | hpos
    · subst h0
      constructor
      · simp [resolveIp, resolveIpFrom]
      · exact ⟨couldNotRetrieveMsg dtype vmId 0,
          by simp [resolveIp, resolveIpFrom]⟩
    · obtain ⟨e, he⟩ := resolveIpFrom_exhausted dtype vmId env maxRetries
        (maxRetries - 1) 0 (by omega) (fun j _ h2 => hnone j h2)
      have he' : resolveIp dtype vmId env maxRetries =
          (maxRetries - 1 + 1, .error e) := he
      rw [he']
      exact ⟨by simp; omega, ⟨e, rfl⟩⟩

/-- Witness for C5: with the agent not ready for the first three polls
and a usable address on the fourth, the resolver returns it after
exactly four queries; with no usable address ever, it fails after
exactly ten queries. -/
theorem claim_C5_witness :
    resolveIp "vm" "105" c5NotReadyEnv 10 = (4, .ok "192.168.100.7") ∧
    ((resolveIp "lxc" "105" c5NeverEnv 10).1 = 10 ∧
      ∃ e, (resolveIp "lxc" "105" c5NeverEnv 10).2 = .error e) :=
  ⟨(claim_C5_resolver_amended "vm" "105" c5NotReadyEnv 10).1 3
      "192.168.100.7" (by omega) (by decide) (by decide),
   (claim_C5_resolver_amended "lxc" "105" c5NeverEnv 10).2.1 (by decide)⟩

/-! ### Claim C8 -/

theorem toList_append (s t : String) :
    (s ++ t).toList = s.toList ++ t.toList := by
  simp [String.toList, String.data_append]

theorem substr_mid (a n b : String) : SubStr n (a ++ n ++ b) := by
  unfold SubStr
  exact ⟨a.toList, b.toList, by rw [toList_append, toList_append]⟩

set_option maxRecDepth 20000 in
/-- C8: for framework `django` (descriptor: python, port 8000), the
built command sequence contains, in order, the base package-bootstrap
command, the python-toolchain install command, the clone command
referencing the given repository URL, and the gunicorn launch command
binding `0.0.0.0:8000` — the port declared in the django descriptor. -/
theorem claim_C8_django_commands (githubUrl : String)
    (envVars : List (String × String)) :
    lookupFramework "django" =
      some ⟨"Django", "python", "4.2", 8000, "pip install django gunicorn"⟩ ∧
    ∃ i1 i2 i3 i4, i1 < i2 ∧ i2 < i3 ∧ i3 < i4 ∧
      (buildDeploymentCommands "django"
        ⟨"Django", "python", "4.2", 8000, "pip install django gunicorn"⟩
        githubUrl envVars).get? i1 = some baseCmd ∧
      (buildDeploymentCommands "django"
        ⟨"Django", "python", "4.2", 8000, "pip install django gunicorn"⟩
        githubUrl envVars).get? i2 = some pyCmd ∧
      (buildDeploymentCommands "django"
        ⟨"Django", "python", "4.2", 8000, "pip install django gunicorn"⟩
        githubUrl envVars).get? i3 = some (cloneCmd githubUrl) ∧
      SubStr githubUrl (cloneCmd githubUrl) ∧
      (buildDeploymentCommands "django"
        ⟨"Django", "python", "4.2", 8000, "pip install django gunicorn"⟩
        githubUrl envVars).get? i4 = some (djangoStartCmd 8000) ∧
      SubStr "0.0.0.0:8000" (djangoStartCmd 8000) := by
  refine ⟨rfl, ?_⟩
  have hclone : SubStr githubUrl (cloneCmd githubUrl) :=
    substr_mid "git clone --depth 1 " githubUrl " /opt/app"
  have hport : SubStr "0.0.0.0:8000" (djangoStartCmd 8000) := by decide
  rcases envVars with _ | ⟨kv, rest⟩
  · exact ⟨0, 1, 3, 5, by omega, by omega, by omega, rfl, rfl, rfl, hclone,
      rfl, hport⟩
  · exact ⟨0, 1, 3, 6, by omega, by omega, by omega, rfl, rfl, rfl, hclone,
      rfl, hport⟩

/-- Witness for C8 (the theorem itself has no Prop hypotheses; this
instantiates it at a concrete repository URL and environment map). -/
theorem claim_C8_witness :
    lookupFramework "django" =
      some ⟨"Django", "python", "4.2", 8000, "pip install django gunicorn"⟩ ∧
    ∃ i1 i2 i3 i4, i1 < i2 ∧ i2 < i3 ∧ i3 < i4 ∧
      (buildDeploymentCommands "django"
        ⟨"Django", "python", "4.2", 8000, "pip install django gunicorn"⟩
        "https://github.com/u/r" [("KEY", "VALUE")]).get? i1 = some baseCmd ∧
      (buildDeploymentCommands "django"
        ⟨"Django", "python", "4.2", 8000, "pip install django gunicorn"⟩
        "https://github.com/u/r" [("KEY", "VALUE")]).get? i2 = some pyCmd ∧
      (buildDeploymentCommands "django"
        ⟨"Django", "python", "4.2", 8000, "pip install django gunicorn"⟩
        "https://github.com/u/r" [("KEY", "VALUE")]).get? i3 =
        some (cloneCmd "https://github.com/u/r") ∧
      SubStr "https://github.com/u/r" (cloneCmd "https://github.com/u/r") ∧
      (buildDeploymentCommands "django"
        ⟨"Django", "python", "4.2", 8000, "pip install django gunicorn"⟩
        "https://github.com/u/r" [("KEY", "VALUE")]).get? i4 =
        some (djangoStartCmd 8000) ∧
      SubStr "0.0.0.0:8000" (djangoStartCmd 8000) :=
  claim_C8_django_commands "https://github.com/u/r" [("KEY", "VALUE")]

/-! ### Claim C9 -/

/-- C9: for any framework string outside the eight recognized ones, the
builder still returns a non-empty sequence that contains the base
bootstrap command, the clone command for the given repository, and the
generic fallback start command — it does not fail. -/
theorem claim_C9_generic_fallback (framework : String) (fc : FrameworkInfo)
    (githubUrl : String) (envVars : List (String × String))
    (hfw : framework ∉ (["react", "vuejs", "nextjs", "express", "django",
      "flask", "fastapi", "laravel"] : List String)) :
    buildDeploymentCommands framework fc githubUrl envVars ≠ [] ∧
    baseCmd ∈ buildDeploymentCommands framework fc githubUrl envVars ∧
    cloneCmd githubUrl ∈ buildDeploymentCommands framework fc githubUrl envVars ∧
    genericStartCmd ∈ buildDeploymentCommands framework fc githubUrl envVars := by
  simp only [List.mem_cons, List.not_mem_nil, or_false, not_or] at hfw
  obtain ⟨h1, h2, h3, h4, h5, h6, h7, h8⟩ := hfw
  refine ⟨?_, ?_, ?_, ?_⟩ <;>
    simp [buildDeploymentCommands, h1, h2, h3, h4, h5, h6, h7, h8]

/-- Witness for C9: the unrecognized framework `svelte`. -/
theorem claim_C9_witness :
    buildDeploymentCommands "svelte" ⟨"Svelte", "nodejs", "4.x", 3000, "x"⟩
      "https://github.com/u/r" [] ≠ [] ∧
    baseCmd ∈ buildDeploymentCommands "svelte"
      ⟨"Svelte", "nodejs", "4.x", 3000, "x"⟩ "https://github.com/u/r" [] ∧
    cloneCmd "https://github.com/u/r" ∈ buildDeploymentCommands "svelte"
      ⟨"Svelte", "nodejs", "4.x", 3000, "x"⟩ "https://github.com/u/r" [] ∧
    genericStartCmd ∈ buildDeploymentCommands "svelte"
      ⟨"Svelte", "nodejs", "4.x", 3000, "x"⟩ "https://github.com/u/r" [] :=
  claim_C9_generic_fallback "svelte" ⟨"Svelte", "nodejs", "4.x", 3000, "x"⟩
    "https://github.com/u/r" [] (by decide)

/-! ### Claim C10 -/

/-- C10: the engine operations `apply`, `destroy` and
`deploy_application` are total functions of their environment (modelling
that the enclosing `try/except Exception` converts every raised
exception into a result dictionary): each returns a dictionary with a
boolean `success`, and whenever `success` is `False` the dictionary
carries an `error` string. -/
theorem claim_C10_engine_totality :
    (∀ name config env, (applyRun name config env).2.success = false →
      ((applyRun name config env).2.error).isSome = true) ∧
    (∀ name env, (destroyRun name env).2.success = false →
      ((destroyRun name env).2.error).isSome = true) ∧
    (∀ ip fw url evars denv, (deployRun ip fw url evars denv).success = false →
      ((deployRun ip fw url evars denv).error).isSome = true) := by
  refine ⟨?_, ?_, ?_⟩
  · intro name config env h
    rcases hinner : applyInner name config env with ⟨ops, r⟩
    rcases r with e | p
    · simp [applyRun, hinner]
    · simp [applyRun, hinner] at h
  · intro name env h
    rcases hinner : destroyInner name env with ⟨ops, r⟩
    rcases r with e | p
    · simp [destroyRun, hinner]
    · simp [destroyRun, hinner] at h
  · intro ip fw url evars denv h
    rcases hinner : deployInner ip fw url evars denv with e | u
    · simp [deployRun, hinner]
    · simp [deployRun, hinner] at h

/-- Witness for C10: an apply whose init fails, a destroy with no state,
and a deploy of an unsupported framework each fail with an error
string present. -/
theorem claim_C10_witness :
    ((applyRun "demo" ⟨"lxc"⟩ c10InitFailEnv).2.error).isSome = true ∧
    ((destroyRun "demo" ⟨false, 0, "", 0, ""⟩).2.error).isSome = true ∧
    ((deployRun "10.0.0.5" "cobol" "https://github.com/u/r" []
      c10SshOkEnv).error).isSome = true :=
  ⟨claim_C10_engine_totality.1 "demo" ⟨"lxc"⟩ c10InitFailEnv rfl,
   claim_C10_engine_totality.2.1 "demo" ⟨false, 0, "", 0, ""⟩ rfl,
   claim_C10_engine_totality.2.2 "10.0.0.5" "cobol" "https://github.com/u/r"
     [] c10SshOkEnv rfl⟩

end PaaS
